import Mathlib

/-!
Verification of the scroll-driven visual-effects code of the
cloudflare-atlas page: a shallow embedding in Lean 4 of the pure
computations of each module (scroll progress, scrollbar mark layout,
title-box phase machine, background color interpolation, panel
animation state, cable-data fetch fallback), with theorems checking the
natural-language specification against the code.

Numbers are modelled as exact rationals; where a computation can hit a
division by zero (which in JavaScript produces NaN or an infinity
rather than an exception), the JavaScript value domain is modelled
explicitly by the type JSVal below.
-/

/-- Model of a JavaScript number as used in the scroll computations:
either a finite value (kept exact as a rational), NaN, or a signed
infinity. Rounding of finite values is irrelevant to the properties
checked here, so finite arithmetic is exact. -/
inductive JSVal where
  | num : ℚ → JSVal
  | nan : JSVal
  | inf : JSVal
  | ninf : JSVal
deriving DecidableEq

/-- JavaScript division restricted to finite operands (the only case the
embedded code reaches: scroll offsets and element sizes are finite).
Division of a finite numerator by zero yields NaN when the numerator is
zero and a signed infinity otherwise, as in IEEE-754 / JavaScript. -/
def jsDiv : JSVal → JSVal → JSVal
  | .num a, .num b =>
      if b = 0 then (if a = 0 then .nan else if a > 0 then .inf else .ninf)
      else .num (a / b)
  | _, _ => .nan

/-- JavaScript Math.min on two values: NaN-propagating, otherwise the
usual order with minus infinity below and plus infinity above every
finite value. -/
def jsMin : JSVal → JSVal → JSVal
  | .nan, _ => .nan
  | _, .nan => .nan
  | .ninf, _ => .ninf
  | _, .ninf => .ninf
  | .inf, y => y
  | x, .inf => x
  | .num a, .num b => .num (min a b)

/-- Whether a JavaScript value is a finite number lying in the closed
unit interval. -/
def jsInUnitInterval : JSVal → Bool
  | .num q => decide (0 ≤ q ∧ q ≤ 1)
  | _ => false

namespace TitleBox

/-- TITLE_BOX_CONFIG.boxingStartPercent (0.01). -/
def boxingStartPercent : ℚ := 1/100

/-- TITLE_BOX_CONFIG.boxingEndPercent (0.13). -/
def boxingEndPercent : ℚ := 13/100

/-- TITLE_BOX_CONFIG.moveStartPercent (0.13). -/
def moveStartPercent : ℚ := 13/100

/-- TITLE_BOX_CONFIG.moveEndPercent (0.35). -/
def moveEndPercent : ℚ := 7/20

/-- TITLE_BOX_CONFIG.makeScrollablePercent (0.4). -/
def makeScrollablePercent : ℚ := 2/5

/-- The animation phases stored in animationState.currentPhase. -/
inductive Phase where
  | idle
  | boxing
  | boxed
  | moved
  | scrollable
deriving DecidableEq

/-- calculateScrollProgress from the title-box controller:
Math.min(1, scrollPosition / (documentHeight - viewportHeight)).
There is no guard for a zero or negative denominator and no lower
clamp, so the JavaScript value domain is used for the result. -/
def calculateScrollProgress (scrollPosition viewportHeight documentHeight : ℚ) : JSVal :=
  jsMin (.num 1) (jsDiv (.num scrollPosition) (.num (documentHeight - viewportHeight)))

/-- The currentPhase assignment performed by updateTitleBoxing: the
if/else-if chain over scrollProgress, with each guard written exactly
as in the source. The chain has no final else, so when no guard matches
the previous phase is kept (over the rationals this never happens; in
JavaScript it happens only for a NaN progress). -/
def updateTitleBoxingPhase (prev : Phase) (scrollProgress : ℚ) : Phase :=
  if scrollProgress < boxingStartPercent then .idle
  else if boxingStartPercent ≤ scrollProgress ∧ scrollProgress < boxingEndPercent then .boxing
  else if boxingEndPercent ≤ scrollProgress ∧ scrollProgress < moveStartPercent then .boxed
  else if moveStartPercent ≤ scrollProgress ∧ scrollProgress < makeScrollablePercent then .moved
  else if makeScrollablePercent ≤ scrollProgress then .scrollable
  else prev

end TitleBox

namespace BackgroundTransition

/-- An RGB color with integer channels, as in BACKGROUND_CONFIG.colors
and in the rounded output of interpolateColor. -/
structure RGB where
  r : ℤ
  g : ℤ
  b : ℤ
deriving DecidableEq

/-- BACKGROUND_CONFIG.colors: black, dark blue, light blue. -/
def colors : List RGB := [⟨0, 0, 0⟩, ⟨15, 0, 107⟩, ⟨62, 116, 255⟩]

/-- BACKGROUND_CONFIG.colorStops. -/
def colorStops : List ℚ := [0, 2/5, 1]

/-- lerp from backgroundTransition.js: start + (end - start) * factor. -/
def lerp (s e factor : ℚ) : ℚ := s + (e - s) * factor

/-- JavaScript Math.round on a finite value: round half toward plus
infinity, i.e. the floor of x + 1/2. -/
def jsRound (x : ℚ) : ℤ := ⌊x + 1/2⌋

/-- interpolateColor: channel-wise rounded linear interpolation. -/
def interpolateColor (c1 c2 : RGB) (factor : ℚ) : RGB :=
  ⟨jsRound (lerp c1.r c2.r factor),
   jsRound (lerp c1.g c2.g factor),
   jsRound (lerp c1.b c2.b factor)⟩

/-- The segment-finding loop of calculateBackgroundColor: scan adjacent
stop pairs in order and return the index of the first pair enclosing
the progress value (none when no pair does). -/
def segmentSearch (progress : ℚ) : List ℚ → Option ℕ
  | s1 :: s2 :: rest =>
      if s1 ≤ progress ∧ progress ≤ s2 then some 0
      else match segmentSearch progress (s2 :: rest) with
        | some j => some (j + 1)
        | none => none
  | _ => none

/-- calculateBackgroundColor: clamp the progress to the unit interval,
find the enclosing stop segment (defaulting to index 0 as the loop
variable initialization does), and return the rounded linear blend of
the segment's bounding colors at the local segment progress. -/
def calculateBackgroundColor (scrollProgress : ℚ) : RGB :=
  let progress := max 0 (min 1 scrollProgress)
  let segmentIndex := (segmentSearch progress colorStops).getD 0
  let segmentStart := colorStops.getD segmentIndex 0
  let segmentEnd := colorStops.getD (segmentIndex + 1) 0
  let segmentProgress := (progress - segmentStart) / (segmentEnd - segmentStart)
  let startColor := colors.getD segmentIndex ⟨0, 0, 0⟩
  let endColor := colors.getD (segmentIndex + 1) ⟨0, 0, 0⟩
  interpolateColor startColor endColor segmentProgress

end BackgroundTransition

namespace ProgressSystem

/-- The part of a DOM bounding client rect the progress computation
reads: viewport-relative top and bottom edges. -/
structure Rect where
  top : ℚ
  bottom : ℚ
deriving DecidableEq

/-- The forEach loop of calculateContentProgress that scans the tracked
panels keeping the running (lowestBottom, lastPanel) pair; the initial
accumulator none models lowestBottom = -Infinity, lastPanel = null,
against which any finite absolute bottom wins. -/
def findLastPanelAux (pageYOffset : ℚ) : Option (ℚ × Rect) → List Rect → Option (ℚ × Rect)
  | acc, [] => acc
  | acc, panel :: rest =>
      let absoluteBottom := panel.bottom + pageYOffset
      let acc2 : Option (ℚ × Rect) :=
        match acc with
        | none => some (absoluteBottom, panel)
        | some (lowestBottom, lastPanel) =>
            if absoluteBottom > lowestBottom then some (absoluteBottom, panel)
            else some (lowestBottom, lastPanel)
      findLastPanelAux pageYOffset acc2 rest

/-- The lastPanel selected by calculateContentProgress: the tracked
panel whose bounding-rect bottom plus page offset is greatest (first
such panel on ties, since the comparison is strict). -/
def findLastPanel (panels : List Rect) (pageYOffset : ℚ) : Option Rect :=
  (findLastPanelAux pageYOffset none panels).map Prod.snd

/-- calculateContentProgress from progressSystem.js, reduced to the
layout quantities it reads: the hero rect (none when querySelector
finds no hero), the tracked panel rects, the page offset and viewport
height. Returns the smoothProgress value. -/
def calculateContentProgress (heroSection : Option Rect) (panels : List Rect)
    (pageYOffset viewportHeight : ℚ) : ℚ :=
  let lastPanel := findLastPanel panels pageYOffset
  match heroSection, lastPanel with
  | some hero, some last =>
      let journeyStart := hero.top
      let journeyEnd := last.bottom - viewportHeight
      if journeyStart ≥ 0 then 0
      else if journeyEnd ≤ 0 then 1
      else
        let totalJourneyDistance := |journeyStart| + journeyEnd
        let currentJourneyDistance := |journeyStart|
        max 0 (min 1 (currentJourneyDistance / totalJourneyDistance))
  | _, _ => 0

end ProgressSystem

namespace Scrollbar

/-- SCROLLBAR_CONFIG.targetViewportPosition (0.2). -/
def targetViewportPosition : ℚ := 1/5

/-- SCROLLBAR_CONFIG.indicatorMinPosition (2% from top). -/
def indicatorMinPosition : ℚ := 2

/-- SCROLLBAR_CONFIG.indicatorMaxPosition (96% from top). -/
def indicatorMaxPosition : ℚ := 96

/-- SCROLLBAR_CONFIG.indicatorRange (94). -/
def indicatorRange : ℚ := 94

/-- The fixed minor-mark count used in createScrollbarMarkings. -/
def totalMinorMarks : ℕ := 40

/-- The kind of a ruler mark: the scroll-to-top mark, a clickable
section (major) mark, or a decorative minor mark. -/
inductive MarkKind where
  | top
  | major
  | minor
deriving DecidableEq

/-- A ruler mark as appended to the ruler-markings element: its kind,
its vertical position as a percentage of the track, and the document
scroll offset its click handler scrolls to (none for minor marks,
which have no handler). -/
structure Mark where
  kind : MarkKind
  position : ℚ
  scrollTarget : Option ℚ
deriving DecidableEq

/-- The clamp applied to positions written to the track:
Math.max(min, Math.min(max, position)). -/
def clampPosition (position : ℚ) : ℚ :=
  max indicatorMinPosition (min indicatorMaxPosition position)

/-- The per-section scroll progress computed in createScrollbarMarkings:
the zero-guarded ratio of the section's target scroll position to the
scrollable document height. -/
def sectionScrollProgress (h1AbsoluteTop documentHeight targetViewportOffset : ℚ) : ℚ :=
  let targetScrollPosition := max 0 (h1AbsoluteTop - targetViewportOffset)
  if documentHeight > 0 then targetScrollPosition / documentHeight else 0

/-- The unclamped indicator-track position of a section's major mark. -/
def sectionMajorRawPosition (h1AbsoluteTop documentHeight targetViewportOffset : ℚ) : ℚ :=
  indicatorMinPosition +
    sectionScrollProgress h1AbsoluteTop documentHeight targetViewportOffset * indicatorRange

/-- createScrollbarMarkings, reduced to the marks it appends: the input
is the list of h1AbsoluteTop values of the sections found on the page
(getSectionData), the scrollable document height
(scrollHeight - innerHeight), and the viewport height. With no
sections the function returns early, appending nothing. Otherwise it
appends the scroll-to-top mark at the minimum bound, one clamped major
mark per section (clicking scrolls the section heading to the target
viewport fraction), and the minor marks at regular spacing that do not
fall within 2% of some section's unclamped major position. -/
def createScrollbarMarkings (sections : List ℚ) (documentHeight viewportHeight : ℚ) :
    List Mark :=
  if sections.isEmpty then []
  else
    let targetViewportOffset := viewportHeight * targetViewportPosition
    let topMark : Mark := ⟨.top, indicatorMinPosition, some 0⟩
    let majorMarks : List Mark := sections.map (fun h1AbsoluteTop =>
      let clampedPosition :=
        clampPosition (sectionMajorRawPosition h1AbsoluteTop documentHeight targetViewportOffset)
      ⟨.major, clampedPosition, some (max 0 (h1AbsoluteTop - targetViewportOffset))⟩)
    let minorMarkSpacing := indicatorRange / totalMinorMarks
    let minorMarks : List Mark := (List.range' 1 (totalMinorMarks - 1)).filterMap (fun (i : ℕ) =>
      let minorMarkPosition := indicatorMinPosition + (i : ℚ) * minorMarkSpacing
      let tooCloseToMajor := sections.any (fun h1AbsoluteTop =>
        |minorMarkPosition -
          sectionMajorRawPosition h1AbsoluteTop documentHeight targetViewportOffset| < 2)
      if tooCloseToMajor then none else some ⟨.minor, minorMarkPosition, none⟩)
    topMark :: (majorMarks ++ minorMarks)

/-- updateScrollIndicator: the clamped track position written for a
given scroll progress. -/
def updateScrollIndicator (scrollProgress : ℚ) : ℚ :=
  clampPosition (indicatorMinPosition + scrollProgress * indicatorRange)

end Scrollbar

namespace PanelAnimations

/-- The part of a panel's bounding client rect the animation reads. -/
structure DOMRect where
  top : ℚ
  bottom : ℚ
  height : ℚ
deriving DecidableEq

/-- The record returned by calculatePanelAnimation. -/
structure PanelAnimationData where
  animationProgress : ℚ
  isFullyVisible : Bool
  isVisible : Bool
  isOffScreen : Bool
deriving DecidableEq

/-- PANEL_ANIMATION_CONFIG.visibilityThreshold (0). -/
def visibilityThreshold : ℚ := 0

/-- PANEL_ANIMATION_CONFIG.resetThreshold (0). -/
def resetThreshold : ℚ := 0

/-- calculatePanelAnimation from panelAnimations.js: local animation
progress and the visibility flags of a panel from its rect and the
viewport height. -/
def calculatePanelAnimation (rect : DOMRect) (viewportHeight : ℚ) : PanelAnimationData :=
  let panelTop := rect.top
  let panelBottom := rect.bottom
  let panelHeight := rect.height
  let viewportMidpoint := viewportHeight / 2
  let isOffScreen := decide (panelTop > viewportHeight) || decide (panelBottom < resetThreshold)
  if panelBottom > visibilityThreshold ∧ panelTop < viewportHeight then
    let panelCenter := panelTop + panelHeight / 2
    if panelCenter > viewportMidpoint then
      let distanceFromMid := panelCenter - viewportMidpoint
      let maxDistance := viewportHeight - viewportMidpoint
      ⟨max 0 (1 - distanceFromMid / maxDistance), false, true, isOffScreen⟩
    else
      ⟨1, true, true, isOffScreen⟩
  else
    ⟨0, false, false, isOffScreen⟩

/-- The per-panel link-animation state touched by updatePanelLinks: the
panel's dataset.linksAnimated flag and, for each anchor inside the
panel, whether it carries the animate-in class. -/
structure PanelLinksState where
  linksAnimated : Bool
  links : List Bool
deriving DecidableEq

/-- updatePanelLinks: on an off-screen panel, reset the flag and strip
the class from every link; on a fully visible panel whose flag is not
yet set, set the flag and start the staggered class additions (the
setTimeout delays of index * linkStaggerDelay are abstracted to the
classes all being scheduled, recorded as true); otherwise leave the
state unchanged. The second component reports whether the staggered
animation was triggered by this update. -/
def updatePanelLinks (st : PanelLinksState) (isFullyVisible isOffScreen : Bool) :
    PanelLinksState × Bool :=
  if isOffScreen then
    (⟨false, st.links.map (fun _ => false)⟩, false)
  else if isFullyVisible && !st.linksAnimated then
    (⟨true, st.links.map (fun _ => true)⟩, true)
  else
    (st, false)

end PanelAnimations

namespace GlobeSystem

/-- A cable feature of the GeoJSON feature collection: LineString
geometry coordinates as longitude-latitude pairs, plus the name and
color properties. -/
structure Feature where
  coordinates : List (ℚ × ℚ)
  name : String
  color : String
deriving DecidableEq

/-- A GeoJSON FeatureCollection of cable features. -/
structure FeatureCollection where
  features : List Feature
deriving DecidableEq

/-- The embedded fallback mock dataset returned by fetchCableData when
the direct request and every proxy attempt fail. -/
def mockData : FeatureCollection :=
  ⟨[⟨[(-74, 40), (-60, 45), (-40, 50), (-20, 52), (-1/10, 103/2)],
     "TransAtlantic Cable", "#00aaff"⟩,
    ⟨[(-118, 34), (-140, 25), (-160, 20), (-180, 25), (160, 30), (139, 35)],
     "TransPacific Cable", "#ff6600"⟩,
    ⟨[(0, 52), (10, 54), (20, 55), (30, 60)],
     "European Cable", "#00ff88"⟩,
    ⟨[(139, 35), (130, 25), (120, 15), (110, 5), (103, 1)],
     "Asia Cable", "#ffaa00"⟩,
    ⟨[(-74, 40), (-80, 30), (-85, 20), (-90, 10), (-85, -10), (-70, -30)],
     "Americas Cable", "#aa00ff"⟩]⟩

/-- The proxy loop of fetchCableData: try each proxy attempt in order
and return the first successfully fetched and parsed dataset. -/
def tryProxies : List (Option FeatureCollection) → Option FeatureCollection
  | [] => none
  | attempt :: rest =>
      match attempt with
      | some data => some data
      | none => tryProxies rest

/-- fetchCableData, reduced to the outcome of each network attempt: the
direct request's outcome followed by the outcome of each configured
proxy attempt, where none stands for any failure (network error,
non-ok HTTP status, or a JSON parse error, all of which the source
catches). Every failure path is caught, so the function always returns
a dataset and never throws: total failure returns the embedded mock
data. -/
def fetchCableData (direct : Option FeatureCollection)
    (proxyResults : List (Option FeatureCollection)) : FeatureCollection :=
  match direct with
  | some data => data
  | none =>
      match tryProxies proxyResults with
      | some data => data
      | none => mockData

end GlobeSystem

namespace TitleBox

/-- Helper: the else-if chain of updateTitleBoxing is equivalent to a
clean four-way partition of the progress line, independent of the
previous phase. -/
lemma updateTitleBoxingPhase_eq (prev : Phase) (p : ℚ) :
    updateTitleBoxingPhase prev p =
      (if p < 1/100 then Phase.idle
       else if p < 13/100 then Phase.boxing
       else if p < 2/5 then Phase.moved
       else Phase.scrollable) := by
  unfold updateTitleBoxingPhase boxingStartPercent boxingEndPercent moveStartPercent
    makeScrollablePercent
  rcases lt_or_le p (1/100 : ℚ) with h1 | h1
  · simp only [if_pos h1]
  · have h1' : ¬ p < 1/100 := not_lt.mpr h1
    rcases lt_or_le p (13/100 : ℚ) with h2 | h2
    · simp only [if_neg h1', if_pos (And.intro h1 h2), if_pos h2]
    · have h2' : ¬ p < 13/100 := not_lt.mpr h2
      have hb : ¬ ((1:ℚ)/100 ≤ p ∧ p < 13/100) := fun h => h2' h.2
      have hc : ¬ ((13:ℚ)/100 ≤ p ∧ p < 13/100) := fun h => h2' h.2
      rcases lt_or_le p (2/5 : ℚ) with h3 | h3
      · simp only [if_neg h1', if_neg hb, if_neg hc, if_pos (And.intro h2 h3), if_neg h2',
          if_pos h3]
      · have h3' : ¬ p < 2/5 := not_lt.mpr h3
        have hd : ¬ ((13:ℚ)/100 ≤ p ∧ p < 2/5) := fun h => h3' h.2
        simp only [if_neg h1', if_neg hb, if_neg hc, if_neg hd, if_pos h3, if_neg h2',
          if_neg h3']

end TitleBox

namespace BackgroundTransition

/-- Helper: on a clamped progress value, the first stop segment is
chosen exactly when the progress is at most 2/5, and otherwise the
second is chosen. -/
lemma segmentSearch_colorStops (c : ℚ) (h0 : 0 ≤ c) (h1 : c ≤ 1) :
    segmentSearch c colorStops = (if c ≤ 2/5 then some 0 else some 1) := by
  unfold colorStops segmentSearch
  rcases le_or_lt c (2/5 : ℚ) with h | h
  · rw [if_pos (And.intro h0 h), if_pos h]
  · rw [if_neg (fun hcon => absurd hcon.2 (not_le.mpr h)), if_neg (not_le.mpr h)]
    unfold segmentSearch
    rw [if_pos (And.intro (le_of_lt h) h1)]

end BackgroundTransition

namespace ProgressSystem

/-- Helper: running the panel-scanning loop from an accumulator that
already satisfies the loop invariant yields a pair whose recorded
bottom is the panel's own absolute bottom, is at least the incoming
bound, dominates every scanned panel, and whose panel is either the
incoming one or one of those scanned. -/
lemma findLastPanelAux_spec (off : ℚ) :
    ∀ (l : List Rect) (b : ℚ) (p : Rect), b = p.bottom + off →
      ∃ b2 p2, findLastPanelAux off (some (b, p)) l = some (b2, p2) ∧
        b2 = p2.bottom + off ∧ b ≤ b2 ∧ (p2 = p ∨ p2 ∈ l) ∧
        ∀ q ∈ l, q.bottom + off ≤ b2 := by
  intro l
  induction l with
  | nil =>
      intro b p hb
      exact ⟨b, p, rfl, hb, le_refl b, Or.inl rfl, fun q hq => absurd hq (List.not_mem_nil q)⟩
  | cons panel rest ih =>
      intro b p hb
      by_cases hgt : panel.bottom + off > b
      · obtain ⟨b2, p2, heq, hb2, hle, hmem, hdom⟩ :=
          ih (panel.bottom + off) panel rfl
        refine ⟨b2, p2, ?_, hb2, le_trans (le_of_lt hgt) hle, ?_, ?_⟩
        · simpa [findLastPanelAux, if_pos hgt] using heq
        · rcases hmem with h | h
          · exact Or.inr (h ▸ List.mem_cons_self panel rest)
          · exact Or.inr (List.mem_cons_of_mem panel h)
        · intro q hq
          rcases List.mem_cons.mp hq with h | h
          · exact h ▸ hle
          · exact hdom q h
      · obtain ⟨b2, p2, heq, hb2, hle, hmem, hdom⟩ := ih b p hb
        refine ⟨b2, p2, ?_, hb2, hle, ?_, ?_⟩
        · simpa [findLastPanelAux, if_neg hgt] using heq
        · rcases hmem with h | h
          · exact Or.inl h
          · exact Or.inr (List.mem_cons_of_mem panel h)
        · intro q hq
          rcases List.mem_cons.mp hq with h | h
          · exact h ▸ le_trans (not_lt.mp hgt) hle
          · exact hdom q h

/-- Helper: on a non-empty panel list the selected last panel exists,
is one of the panels, and maximizes the absolute bottom edge. -/
lemma findLastPanel_spec (panels : List Rect) (off : ℚ) (hne : panels ≠ []) :
    ∃ sel, findLastPanel panels off = some sel ∧ sel ∈ panels ∧
      ∀ q ∈ panels, q.bottom + off ≤ sel.bottom + off := by
  cases panels with
  | nil => exact absurd rfl hne
  | cons panel rest =>
      obtain ⟨b2, p2, heq, hb2, hle, hmem, hdom⟩ :=
        findLastPanelAux_spec off rest (panel.bottom + off) panel rfl
      refine ⟨p2, ?_, ?_, ?_⟩
      · unfold findLastPanel
        simp [findLastPanelAux, heq]
      · rcases hmem with h | h
        · exact h ▸ List.mem_cons_self panel rest
        · exact List.mem_cons_of_mem panel h
      · intro q hq
        rcases List.mem_cons.mp hq with h | h
        · rw [h]
          exact hb2 ▸ hle
        · exact hb2 ▸ hdom q h

end ProgressSystem

namespace Scrollbar

/-- Helper: clampPosition always lands in the configured band. -/
lemma clampPosition_mem (position : ℚ) :
    indicatorMinPosition ≤ clampPosition position ∧
      clampPosition position ≤ indicatorMaxPosition := by
  unfold clampPosition indicatorMinPosition indicatorMaxPosition
  constructor
  · exact le_max_left _ _
  · exact max_le (by norm_num) (min_le_left _ _)

/-- Helper: every mark appended by createScrollbarMarkings has its
position inside the configured band. -/
lemma createScrollbarMarkings_position_mem (sections : List ℚ)
    (documentHeight viewportHeight : ℚ) (m : Mark)
    (hm : m ∈ createScrollbarMarkings sections documentHeight viewportHeight) :
    indicatorMinPosition ≤ m.position ∧ m.position ≤ indicatorMaxPosition := by
  unfold createScrollbarMarkings at hm
  by_cases hemp : sections.isEmpty
  · rw [if_pos hemp] at hm
    exact absurd hm (List.not_mem_nil m)
  · rw [if_neg hemp] at hm
    rcases List.mem_cons.mp hm with htop | hrest
    · rw [htop]
      unfold indicatorMinPosition indicatorMaxPosition
      norm_num
    rcases List.mem_append.mp hrest with hmaj | hmin
    · obtain ⟨h1Top, _, hmk⟩ := List.mem_map.mp hmaj
      rw [← hmk]
      exact clampPosition_mem _
    · obtain ⟨i, hi, hmk⟩ := List.mem_filterMap.mp hmin
      rcases List.mem_range'_1.mp hi with ⟨hi1, hi2⟩
      have hi39 : i ≤ 39 := by
        unfold totalMinorMarks at hi2
        omega
      dsimp only at hmk
      split at hmk
      · exact absurd hmk (by simp)
      · have hpos : m.position =
            indicatorMinPosition + (i : ℚ) * (indicatorRange / (totalMinorMarks : ℚ)) := by
          rw [← Option.some_inj.mp hmk]
        rw [hpos]
        unfold indicatorMinPosition indicatorMaxPosition indicatorRange totalMinorMarks
        have hc1 : (1:ℚ) ≤ (i:ℚ) := by exact_mod_cast hi1
        have hc39 : (i:ℚ) ≤ 39 := by exact_mod_cast hi39
        push_cast
        constructor
        · nlinarith
        · nlinarith

end Scrollbar

namespace PanelAnimations

/-- Helper: a panel judged fully visible is not judged off-screen. -/
lemma isFullyVisible_not_isOffScreen (rect : DOMRect) (viewportHeight : ℚ)
    (h : (calculatePanelAnimation rect viewportHeight).isFullyVisible = true) :
    (calculatePanelAnimation rect viewportHeight).isOffScreen = false := by
  unfold calculatePanelAnimation at *
  by_cases hvis : rect.bottom > visibilityThreshold ∧ rect.top < viewportHeight
  · rw [if_pos hvis] at h ⊢
    unfold resetThreshold visibilityThreshold at *
    have h1 : ¬ (rect.top > viewportHeight) := not_lt.mpr (le_of_lt hvis.2)
    have h2 : ¬ (rect.bottom < 0) := not_lt.mpr (le_of_lt hvis.1)
    by_cases hc : rect.top + rect.height / 2 > viewportHeight / 2
    · rw [if_pos hc] at h ⊢
      exact absurd h (by simp)
    · rw [if_neg hc] at h ⊢
      simp [h1, h2]
  · rw [if_neg hvis] at h
    exact absurd h (by simp)

end PanelAnimations

namespace GlobeSystem

/-- Helper: when every proxy attempt fails, the proxy loop yields
nothing. -/
lemma tryProxies_all_none (proxyResults : List (Option FeatureCollection))
    (h : ∀ r ∈ proxyResults, r = none) : tryProxies proxyResults = none := by
  induction proxyResults with
  | nil => rfl
  | cons attempt rest ih =>
      have ha : attempt = none := h attempt (List.mem_cons_self attempt rest)
      rw [ha]
      unfold tryProxies
      exact ih (fun r hr => h r (List.mem_cons_of_mem attempt hr))

end GlobeSystem


/-- Claim C1: for every viewport height v > 0 and every layout of the
hero section and tracked panels, calculateContentProgress returns 0
while the hero top is at or below the viewport top, 1 once the last
panel's bottom has reached the viewport bottom, and otherwise the
linear ratio |journeyStart| / (|journeyStart| + journeyEnd); in every
case the returned smoothProgress lies in [0,1]. -/
theorem calculateContentProgress_journey_spec
    (hero last : ProgressSystem.Rect) (panels : List ProgressSystem.Rect)
    (pageYOffset viewportHeight : ℚ)
    (hv : 0 < viewportHeight)
    (hlast : ProgressSystem.findLastPanel panels pageYOffset = some last) :
    (0 ≤ ProgressSystem.calculateContentProgress (some hero) panels pageYOffset viewportHeight ∧
        ProgressSystem.calculateContentProgress (some hero) panels pageYOffset viewportHeight ≤ 1) ∧
      (hero.top ≥ 0 →
        ProgressSystem.calculateContentProgress (some hero) panels pageYOffset viewportHeight = 0) ∧
      (hero.top < 0 → last.bottom - viewportHeight ≤ 0 →
        ProgressSystem.calculateContentProgress (some hero) panels pageYOffset viewportHeight = 1) ∧
      (hero.top < 0 → 0 < last.bottom - viewportHeight →
        ProgressSystem.calculateContentProgress (some hero) panels pageYOffset viewportHeight =
          |hero.top| / (|hero.top| + (last.bottom - viewportHeight))) := by
  have hred : ProgressSystem.calculateContentProgress (some hero) panels pageYOffset
      viewportHeight =
      (if hero.top ≥ 0 then 0
       else if last.bottom - viewportHeight ≤ 0 then (1 : ℚ)
       else max 0 (min 1 (|hero.top| / (|hero.top| + (last.bottom - viewportHeight))))) := by
    unfold ProgressSystem.calculateContentProgress
    rw [hlast]
  rw [hred]
  split_ifs with h1 h2
  · exact ⟨⟨le_refl 0, by norm_num⟩, fun _ => rfl,
      fun hh _ => absurd h1 (not_le.mpr hh), fun hh _ => absurd h1 (not_le.mpr hh)⟩
  · exact ⟨⟨by norm_num, le_refl 1⟩, fun hh => absurd hh h1,
      fun _ _ => rfl, fun _ hh2 => absurd h2 (not_le.mpr hh2)⟩
  · have hh : hero.top < 0 := not_le.mp h1
    have hh2 : 0 < last.bottom - viewportHeight := not_le.mp h2
    have ha : 0 < |hero.top| := abs_pos.mpr (ne_of_lt hh)
    have hden : 0 < |hero.top| + (last.bottom - viewportHeight) := by linarith
    have hratio0 : 0 ≤ |hero.top| / (|hero.top| + (last.bottom - viewportHeight)) :=
      div_nonneg (abs_nonneg _) (le_of_lt hden)
    have hratio1 : |hero.top| / (|hero.top| + (last.bottom - viewportHeight)) ≤ 1 := by
      rw [div_le_one hden]
      linarith
    refine ⟨⟨le_max_left _ _, max_le (by norm_num) (min_le_left _ _)⟩,
      fun hge => absurd hge h1, fun _ hle => absurd hle h2, fun _ _ => ?_⟩
    rw [min_eq_right hratio1, max_eq_right hratio0]

/-- Witness for C1 at a concrete layout: hero top at -100, a single
panel with bottom 800, page offset 0, viewport height 600. -/
theorem calculateContentProgress_journey_spec_witness :
    (0 ≤ ProgressSystem.calculateContentProgress (some ⟨-100, 500⟩) [⟨0, 800⟩] 0 600 ∧
        ProgressSystem.calculateContentProgress (some ⟨-100, 500⟩) [⟨0, 800⟩] 0 600 ≤ 1) ∧
      ((ProgressSystem.Rect.mk (-100) 500).top ≥ 0 →
        ProgressSystem.calculateContentProgress (some ⟨-100, 500⟩) [⟨0, 800⟩] 0 600 = 0) ∧
      ((ProgressSystem.Rect.mk (-100) 500).top < 0 →
          (ProgressSystem.Rect.mk 0 800).bottom - 600 ≤ 0 →
        ProgressSystem.calculateContentProgress (some ⟨-100, 500⟩) [⟨0, 800⟩] 0 600 = 1) ∧
      ((ProgressSystem.Rect.mk (-100) 500).top < 0 →
          0 < (ProgressSystem.Rect.mk 0 800).bottom - 600 →
        ProgressSystem.calculateContentProgress (some ⟨-100, 500⟩) [⟨0, 800⟩] 0 600 =
          |(ProgressSystem.Rect.mk (-100) 500).top| /
            (|(ProgressSystem.Rect.mk (-100) 500).top| +
              ((ProgressSystem.Rect.mk 0 800).bottom - 600))) :=
  calculateContentProgress_journey_spec ⟨-100, 500⟩ ⟨0, 800⟩ [⟨0, 800⟩] 0 600
    (by norm_num) (by simp [ProgressSystem.findLastPanel, ProgressSystem.findLastPanelAux])

/-- Claim C2, corrected: the scrollbar half of the claim holds (with a
zero scrollable document height every section marker is placed at the
minimum bound), and the title-box calculateScrollProgress lies in
[0,1] only under the side conditions the code never checks: a
non-negative scroll position and a viewport strictly shorter than the
document. With a zero denominator the division has no guard and
produces NaN. -/
theorem scrollbar_zero_guard_amended :
    (∀ (sections : List ℚ) (viewportHeight : ℚ) (m : Scrollbar.Mark),
        m ∈ Scrollbar.createScrollbarMarkings sections 0 viewportHeight →
        m.kind = Scrollbar.MarkKind.major → m.position = Scrollbar.indicatorMinPosition) ∧
    (∀ scrollPosition viewportHeight documentHeight : ℚ,
        0 ≤ scrollPosition → viewportHeight < documentHeight →
        ∃ q, TitleBox.calculateScrollProgress scrollPosition viewportHeight documentHeight =
            JSVal.num q ∧ 0 ≤ q ∧ q ≤ 1) ∧
    (∀ viewportHeight : ℚ,
        TitleBox.calculateScrollProgress 0 viewportHeight viewportHeight = JSVal.nan) := by
  refine ⟨?_, ?_, ?_⟩
  · intro sections viewportHeight m hm hkind
    unfold Scrollbar.createScrollbarMarkings at hm
    by_cases hemp : sections.isEmpty
    · rw [if_pos hemp] at hm
      exact absurd hm (List.not_mem_nil m)
    · rw [if_neg hemp] at hm
      rcases List.mem_cons.mp hm with htop | hrest
      · rw [htop] at hkind
        exact absurd hkind (by simp)
      rcases List.mem_append.mp hrest with hmaj | hmin
      · obtain ⟨h1Top, _, hmk⟩ := List.mem_map.mp hmaj
        rw [← hmk]
        show Scrollbar.clampPosition (Scrollbar.sectionMajorRawPosition h1Top 0 _) =
          Scrollbar.indicatorMinPosition
        unfold Scrollbar.sectionMajorRawPosition Scrollbar.sectionScrollProgress
        rw [if_neg (lt_irrefl (0 : ℚ))]
        unfold Scrollbar.clampPosition Scrollbar.indicatorMinPosition
          Scrollbar.indicatorMaxPosition
        norm_num
      · obtain ⟨i, _, hmk⟩ := List.mem_filterMap.mp hmin
        dsimp only at hmk
        split at hmk
        · exact absurd hmk (by simp)
        · rw [← Option.some_inj.mp hmk] at hkind
          exact absurd hkind (by simp)
  · intro scrollPosition viewportHeight documentHeight hs hvd
    have hden : documentHeight - viewportHeight ≠ 0 := sub_ne_zero.mpr (ne_of_gt hvd)
    have hdenpos : 0 < documentHeight - viewportHeight := by linarith
    refine ⟨min 1 (scrollPosition / (documentHeight - viewportHeight)), ?_, ?_, ?_⟩
    · simp [TitleBox.calculateScrollProgress, jsDiv, jsMin, hden]
    · exact le_min (by norm_num) (div_nonneg hs (le_of_lt hdenpos))
    · exact min_le_left _ _
  · intro viewportHeight
    simp [TitleBox.calculateScrollProgress, jsDiv, jsMin, sub_self]

/-- Witness for the amended C2: a concrete major mark with a zero
document height, an in-range progress at scroll 300 of a 2000px
document in a 768px viewport, and the unguarded NaN at an exactly
viewport-sized document. -/
theorem scrollbar_zero_guard_amended_witness :
    (Scrollbar.Mark.mk Scrollbar.MarkKind.major 2 (some 0)).position =
      Scrollbar.indicatorMinPosition ∧
    (∃ q, TitleBox.calculateScrollProgress 300 768 2000 = JSVal.num q ∧ 0 ≤ q ∧ q ≤ 1) ∧
    TitleBox.calculateScrollProgress 0 768 768 = JSVal.nan :=
  ⟨scrollbar_zero_guard_amended.1 [100] 500 ⟨Scrollbar.MarkKind.major, 2, some 0⟩
      (by
        unfold Scrollbar.createScrollbarMarkings
        rw [if_neg (by simp)]
        refine List.mem_cons_of_mem _ (List.mem_append_left _ (List.mem_map.mpr
          ⟨100, List.mem_singleton.mpr rfl, ?_⟩))
        unfold Scrollbar.sectionMajorRawPosition Scrollbar.sectionScrollProgress
          Scrollbar.clampPosition Scrollbar.targetViewportPosition
          Scrollbar.indicatorMinPosition Scrollbar.indicatorMaxPosition
          Scrollbar.indicatorRange
        norm_num)
      rfl,
   scrollbar_zero_guard_amended.2.1 300 768 2000 (by norm_num) (by norm_num),
   scrollbar_zero_guard_amended.2.2 768⟩

/-- Counterexample for C2 as stated: calculateScrollProgress has no
zero-division guard, so at scroll position 0 with document height
equal to viewport height it returns NaN, which is not a value in
[0,1]. -/
theorem calculateScrollProgress_nan_counterexample :
    TitleBox.calculateScrollProgress 0 768 768 = JSVal.nan ∧
      jsInUnitInterval (TitleBox.calculateScrollProgress 0 768 768) = false := by
  constructor
  · simp [TitleBox.calculateScrollProgress, jsDiv, jsMin, sub_self]
  · simp [TitleBox.calculateScrollProgress, jsDiv, jsMin, sub_self, jsInUnitInterval]

/-- Claim C3: the title-box phase assignment is a total deterministic
partition of scroll progress: independent of the previous phase,
exactly one phase results, characterized by the configured threshold
ranges with no overlap and no gap, the boundaries 0.01, 0.13 and 0.4
each landing in exactly one phase. -/
theorem updateTitleBoxingPhase_partition (prev : TitleBox.Phase) (p : ℚ) :
    (TitleBox.updateTitleBoxingPhase prev p = TitleBox.Phase.idle ↔ p < 1/100) ∧
    (TitleBox.updateTitleBoxingPhase prev p = TitleBox.Phase.boxing ↔
      1/100 ≤ p ∧ p < 13/100) ∧
    (TitleBox.updateTitleBoxingPhase prev p = TitleBox.Phase.moved ↔
      13/100 ≤ p ∧ p < 2/5) ∧
    (TitleBox.updateTitleBoxingPhase prev p = TitleBox.Phase.scrollable ↔ 2/5 ≤ p) := by
  rw [TitleBox.updateTitleBoxingPhase_eq]
  split_ifs with h1 h2 h3
  · exact ⟨⟨fun _ => h1, fun _ => rfl⟩,
      ⟨fun h => (nomatch h), fun h => absurd h1 (not_lt.mpr h.1)⟩,
      ⟨fun h => (nomatch h),
        fun h => absurd h1 (not_lt.mpr (le_trans (by norm_num) h.1))⟩,
      ⟨fun h => (nomatch h),
        fun h => absurd h1 (not_lt.mpr (le_trans (by norm_num) h))⟩⟩
  · exact ⟨⟨fun h => (nomatch h), fun h => absurd h h1⟩,
      ⟨fun _ => ⟨not_lt.mp h1, h2⟩, fun _ => rfl⟩,
      ⟨fun h => (nomatch h), fun h => absurd h2 (not_lt.mpr h.1)⟩,
      ⟨fun h => (nomatch h),
        fun h => absurd h2 (not_lt.mpr (le_trans (by norm_num) h))⟩⟩
  · exact ⟨⟨fun h => (nomatch h), fun h => absurd h h1⟩,
      ⟨fun h => (nomatch h), fun h => absurd h.2 h2⟩,
      ⟨fun _ => ⟨not_lt.mp h2, h3⟩, fun _ => rfl⟩,
      ⟨fun h => (nomatch h), fun h => absurd h3 (not_lt.mpr h)⟩⟩
  · exact ⟨⟨fun h => (nomatch h), fun h => absurd h h1⟩,
      ⟨fun h => (nomatch h), fun h => absurd h.2 h2⟩,
      ⟨fun h => (nomatch h), fun h => absurd h.2 h3⟩,
      ⟨fun _ => not_lt.mp h3, fun _ => rfl⟩⟩

/-- Claim C4: calculateBackgroundColor clamps its input to the unit
interval and returns the blend of the two colors bounding the stop
segment containing the clamped progress; at each stop boundary the
result is exactly the configured stop color, in particular rgb(15, 0,
107) at progress 0.4. -/
theorem calculateBackgroundColor_piecewise (scrollProgress : ℚ) :
    (BackgroundTransition.calculateBackgroundColor scrollProgress =
      (if max 0 (min 1 scrollProgress) ≤ 2/5 then
        BackgroundTransition.interpolateColor ⟨0, 0, 0⟩ ⟨15, 0, 107⟩
          ((max 0 (min 1 scrollProgress) - 0) / (2/5 - 0))
       else
        BackgroundTransition.interpolateColor ⟨15, 0, 107⟩ ⟨62, 116, 255⟩
          ((max 0 (min 1 scrollProgress) - 2/5) / (1 - 2/5)))) ∧
    BackgroundTransition.calculateBackgroundColor (2/5) = ⟨15, 0, 107⟩ ∧
    BackgroundTransition.calculateBackgroundColor 0 = ⟨0, 0, 0⟩ ∧
    BackgroundTransition.calculateBackgroundColor 1 = ⟨62, 116, 255⟩ := by
  refine ⟨?_, ?_, ?_, ?_⟩
  · have h0 : 0 ≤ max 0 (min 1 scrollProgress) := le_max_left _ _
    have h1 : max 0 (min 1 scrollProgress) ≤ 1 := max_le (by norm_num) (min_le_left _ _)
    unfold BackgroundTransition.calculateBackgroundColor
    dsimp only
    rw [BackgroundTransition.segmentSearch_colorStops _ h0 h1]
    split_ifs with h
    · norm_num [BackgroundTransition.colorStops, BackgroundTransition.colors]
    · norm_num [BackgroundTransition.colorStops, BackgroundTransition.colors]
  · norm_num [BackgroundTransition.calculateBackgroundColor,
      BackgroundTransition.segmentSearch, BackgroundTransition.colorStops,
      BackgroundTransition.colors, BackgroundTransition.interpolateColor,
      BackgroundTransition.lerp, BackgroundTransition.jsRound]
  · norm_num [BackgroundTransition.calculateBackgroundColor,
      BackgroundTransition.segmentSearch, BackgroundTransition.colorStops,
      BackgroundTransition.colors, BackgroundTransition.interpolateColor,
      BackgroundTransition.lerp, BackgroundTransition.jsRound]
  · norm_num [BackgroundTransition.calculateBackgroundColor,
      BackgroundTransition.segmentSearch, BackgroundTransition.colorStops,
      BackgroundTransition.colors, BackgroundTransition.interpolateColor,
      BackgroundTransition.lerp, BackgroundTransition.jsRound]

/-- Claim C5: when the direct request and every configured proxy
attempt fail, fetchCableData returns exactly the embedded fallback
dataset of five named cable features (the function is total, so no
error reaches the caller). -/
theorem fetchCableData_total_fallback
    (proxyResults : List (Option GlobeSystem.FeatureCollection))
    (h : ∀ r ∈ proxyResults, r = none) :
    GlobeSystem.fetchCableData none proxyResults = GlobeSystem.mockData ∧
    GlobeSystem.mockData.features.map GlobeSystem.Feature.name =
      ["TransAtlantic Cable", "TransPacific Cable", "European Cable",
       "Asia Cable", "Americas Cable"] := by
  constructor
  · unfold GlobeSystem.fetchCableData
    rw [GlobeSystem.tryProxies_all_none proxyResults h]
  · rfl

/-- Witness for C5 with the four configured proxies all failing. -/
theorem fetchCableData_total_fallback_witness :
    GlobeSystem.fetchCableData none [none, none, none, none] = GlobeSystem.mockData ∧
    GlobeSystem.mockData.features.map GlobeSystem.Feature.name =
      ["TransAtlantic Cable", "TransPacific Cable", "European Cable",
       "Asia Cable", "Americas Cable"] :=
  fetchCableData_total_fallback [none, none, none, none] (by decide)

/-- Counterexample for C6 as stated: with zero sections the function
returns before creating any mark, so no scroll-to-top marker is
placed on that invocation. -/
theorem createScrollbarMarkings_empty_counterexample :
    Scrollbar.createScrollbarMarkings [] 1000 800 = [] := by
  rfl

/-- Claim C6, corrected: on every invocation with at least one section
found, the first appended mark is the clickable scroll-to-top mark at
the minimum bound with click scroll target 0; with zero sections the
function returns early and creates no marks at all. -/
theorem createScrollbarMarkings_top_mark (sections : List ℚ)
    (documentHeight viewportHeight : ℚ) (h : sections ≠ []) :
    (Scrollbar.createScrollbarMarkings sections documentHeight viewportHeight).head? =
      some ⟨Scrollbar.MarkKind.top, Scrollbar.indicatorMinPosition, some 0⟩ := by
  unfold Scrollbar.createScrollbarMarkings
  rw [if_neg (by simpa using h)]
  rfl

/-- Witness for the amended C6 at a concrete single-section page. -/
theorem createScrollbarMarkings_top_mark_witness :
    (Scrollbar.createScrollbarMarkings [100] 1000 800).head? =
      some ⟨Scrollbar.MarkKind.top, Scrollbar.indicatorMinPosition, some 0⟩ :=
  createScrollbarMarkings_top_mark [100] 1000 800 (by simp)

/-- Claim C7: the lastPanel selected by calculateContentProgress
maximizes the absolute bottom edge (bounding-rect bottom plus page
offset) over every non-empty set of tracked panels, regardless of DOM
order. -/
theorem findLastPanel_maximizes (panels : List ProgressSystem.Rect) (pageYOffset : ℚ)
    (h : panels ≠ []) :
    ∃ sel, ProgressSystem.findLastPanel panels pageYOffset = some sel ∧ sel ∈ panels ∧
      ∀ q ∈ panels, q.bottom + pageYOffset ≤ sel.bottom + pageYOffset :=
  ProgressSystem.findLastPanel_spec panels pageYOffset h

/-- Witness for C7 on a list whose maximal-bottom panel is not last in
DOM order. -/
theorem findLastPanel_maximizes_witness :
    ∃ sel, ProgressSystem.findLastPanel [⟨0, 300⟩, ⟨300, 900⟩, ⟨600, 750⟩] 10 = some sel ∧
      sel ∈ [ProgressSystem.Rect.mk 0 300, ⟨300, 900⟩, ⟨600, 750⟩] ∧
      ∀ q ∈ [ProgressSystem.Rect.mk 0 300, ⟨300, 900⟩, ⟨600, 750⟩],
        q.bottom + 10 ≤ sel.bottom + 10 :=
  findLastPanel_maximizes [⟨0, 300⟩, ⟨300, 900⟩, ⟨600, 750⟩] 10 (by simp)

/-- Claim C8: every position written to the scrollbar track lies in the
configured band [2%, 96%]: the indicator position is clamped for every
scroll progress, and every mark appended by createScrollbarMarkings
lies in the band for every section layout. -/
theorem scrollbar_positions_in_band :
    (∀ scrollProgress : ℚ,
        Scrollbar.indicatorMinPosition ≤ Scrollbar.updateScrollIndicator scrollProgress ∧
        Scrollbar.updateScrollIndicator scrollProgress ≤ Scrollbar.indicatorMaxPosition) ∧
    (∀ (sections : List ℚ) (documentHeight viewportHeight : ℚ) (m : Scrollbar.Mark),
        m ∈ Scrollbar.createScrollbarMarkings sections documentHeight viewportHeight →
        Scrollbar.indicatorMinPosition ≤ m.position ∧
          m.position ≤ Scrollbar.indicatorMaxPosition) :=
  ⟨fun _ => Scrollbar.clampPosition_mem _, Scrollbar.createScrollbarMarkings_position_mem⟩

/-- Witness for C8: the indicator at an overscrolled progress of 3/2
and a concrete appended mark. -/
theorem scrollbar_positions_in_band_witness :
    (Scrollbar.indicatorMinPosition ≤ Scrollbar.updateScrollIndicator (3/2) ∧
      Scrollbar.updateScrollIndicator (3/2) ≤ Scrollbar.indicatorMaxPosition) ∧
    (Scrollbar.indicatorMinPosition ≤
        (Scrollbar.Mark.mk Scrollbar.MarkKind.top 2 (some 0)).position ∧
      (Scrollbar.Mark.mk Scrollbar.MarkKind.top 2 (some 0)).position ≤
        Scrollbar.indicatorMaxPosition) :=
  ⟨scrollbar_positions_in_band.1 (3/2),
   scrollbar_positions_in_band.2 [100] 1000 800 ⟨Scrollbar.MarkKind.top, 2, some 0⟩
     (by
       unfold Scrollbar.createScrollbarMarkings
       rw [if_neg (by simp)]
       exact List.mem_cons_self _ _)⟩

/-- Claim C9: when a panel whose linksAnimated flag is set goes fully
off-screen, the next update resets the flag and removes the animation
class from every link, and a subsequent update with the panel fully
visible re-triggers the staggered link animation. -/
theorem panel_links_replay (st : PanelAnimations.PanelLinksState)
    (rectOut rectIn : PanelAnimations.DOMRect) (viewportHeight : ℚ)
    (hflag : st.linksAnimated = true)
    (hout : (PanelAnimations.calculatePanelAnimation rectOut viewportHeight).isOffScreen = true)
    (hin : (PanelAnimations.calculatePanelAnimation rectIn viewportHeight).isFullyVisible
      = true) :
    ((PanelAnimations.updatePanelLinks st
        (PanelAnimations.calculatePanelAnimation rectOut viewportHeight).isFullyVisible
        (PanelAnimations.calculatePanelAnimation rectOut viewportHeight).isOffScreen).1.linksAnimated
      = false) ∧
    (∀ b ∈ (PanelAnimations.updatePanelLinks st
        (PanelAnimations.calculatePanelAnimation rectOut viewportHeight).isFullyVisible
        (PanelAnimations.calculatePanelAnimation rectOut viewportHeight).isOffScreen).1.links,
      b = false) ∧
    ((PanelAnimations.updatePanelLinks
        (PanelAnimations.updatePanelLinks st
          (PanelAnimations.calculatePanelAnimation rectOut viewportHeight).isFullyVisible
          (PanelAnimations.calculatePanelAnimation rectOut viewportHeight).isOffScreen).1
        (PanelAnimations.calculatePanelAnimation rectIn viewportHeight).isFullyVisible
        (PanelAnimations.calculatePanelAnimation rectIn viewportHeight).isOffScreen).2
      = true) := by
  have hinoff : (PanelAnimations.calculatePanelAnimation rectIn viewportHeight).isOffScreen
      = false :=
    PanelAnimations.isFullyVisible_not_isOffScreen rectIn viewportHeight hin
  rw [hout, hin, hinoff]
  unfold PanelAnimations.updatePanelLinks
  simp

/-- Witness for C9: a panel 200px past the viewport bottom, then a
panel whose center sits above the viewport midpoint. -/
theorem panel_links_replay_witness :
    ((PanelAnimations.updatePanelLinks ⟨true, [true, true]⟩
        (PanelAnimations.calculatePanelAnimation ⟨1200, 1500, 300⟩ 1000).isFullyVisible
        (PanelAnimations.calculatePanelAnimation ⟨1200, 1500, 300⟩ 1000).isOffScreen).1.linksAnimated
      = false) ∧
    (∀ b ∈ (PanelAnimations.updatePanelLinks ⟨true, [true, true]⟩
        (PanelAnimations.calculatePanelAnimation ⟨1200, 1500, 300⟩ 1000).isFullyVisible
        (PanelAnimations.calculatePanelAnimation ⟨1200, 1500, 300⟩ 1000).isOffScreen).1.links,
      b = false) ∧
    ((PanelAnimations.updatePanelLinks
        (PanelAnimations.updatePanelLinks ⟨true, [true, true]⟩
          (PanelAnimations.calculatePanelAnimation ⟨1200, 1500, 300⟩ 1000).isFullyVisible
          (PanelAnimations.calculatePanelAnimation ⟨1200, 1500, 300⟩ 1000).isOffScreen).1
        (PanelAnimations.calculatePanelAnimation ⟨100, 500, 400⟩ 1000).isFullyVisible
        (PanelAnimations.calculatePanelAnimation ⟨100, 500, 400⟩ 1000).isOffScreen).2
      = true) :=
  panel_links_replay ⟨true, [true, true]⟩ ⟨1200, 1500, 300⟩ ⟨100, 500, 400⟩ 1000
    rfl
    (by norm_num [PanelAnimations.calculatePanelAnimation, PanelAnimations.visibilityThreshold,
      PanelAnimations.resetThreshold])
    (by norm_num [PanelAnimations.calculatePanelAnimation, PanelAnimations.visibilityThreshold,
      PanelAnimations.resetThreshold])

/-- Claim C10: under the shipped configuration the fully-boxed branch
is unreachable (its guard requires progress at least 0.13 and below
0.13 at once), so after any update the phase is idle, boxing, moved or
scrollable, and never boxed. -/
theorem updateTitleBoxingPhase_boxed_unreachable (prev : TitleBox.Phase) (p : ℚ) :
    TitleBox.updateTitleBoxingPhase prev p ≠ TitleBox.Phase.boxed ∧
    (TitleBox.updateTitleBoxingPhase prev p = TitleBox.Phase.idle ∨
      TitleBox.updateTitleBoxingPhase prev p = TitleBox.Phase.boxing ∨
      TitleBox.updateTitleBoxingPhase prev p = TitleBox.Phase.moved ∨
      TitleBox.updateTitleBoxingPhase prev p = TitleBox.Phase.scrollable) := by
  rw [TitleBox.updateTitleBoxingPhase_eq]
  split_ifs <;> simp
